import Mathlib

/-!
Shallow embedding of the domain core of the console banking simulator
(`src/conta_bancaria.py`, referred to below as V1, and
`src/conta_bancaria_v2.py`, referred to below as V2).

Amounts are modelled as rationals (`ℚ`): the Python sources use plain
numbers with only addition, subtraction and order comparisons, so `ℚ`
captures the arithmetic exactly for every representable input.

Rejection reasons: the Python methods return booleans and print a
distinct message on each failure branch.  Each failure branch is mapped
to the error kind named by the corresponding message (insufficient
balance, invalid amount, per-transaction limit exceeded, daily
withdrawal cap reached), keeping the branch order of the source.
-/

/-- Currency amounts of the banking model. -/
abbrev Dinheiro := ℚ

/-- Transaction kinds recorded in an account statement (`Saque` /
`Deposito` in V2). -/
inductive TipoTransacao where
  | saque
  | deposito
deriving DecidableEq, Repr

/-- One record of the V2 statement (`ImprimirExtrato.adicionar_transacao`
stores the class name and the value; the timestamp is not modelled). -/
structure Transacao where
  tipo : TipoTransacao
  valor : Dinheiro
deriving DecidableEq, Repr

/-- Mutable state of a V2 account: `_saldo` and the `_transacoes` list of
its `ImprimirExtrato`. -/
structure Conta where
  saldo : Dinheiro
  extrato : List Transacao
deriving DecidableEq, Repr

/-- Outcome of a withdrawal attempt, one constructor per branch of the
V1/V2 `sacar` methods; `ok` carries the balance after the withdrawal. -/
inductive SaqueResult where
  | ok (novoSaldo : Dinheiro)
  | insufficientBalance
  | invalidAmount
  | limitExceeded
  | dailyWithdrawalCapReached
deriving DecidableEq, Repr

/-- Outcome of a deposit attempt, one constructor per branch of the
V1/V2 `depositar` methods. -/
inductive DepositoResult where
  | ok (novoSaldo : Dinheiro)
  | invalidAmount
deriving DecidableEq, Repr

/-- `ContaBancaria.sacar` of V2 (lines 309-344): reports insufficient
balance when `valor > saldo`, otherwise withdraws when `valor > 0`,
otherwise reports an invalid amount. -/
def ContaBancaria.sacar (saldo : Dinheiro) (valor : Dinheiro) : SaqueResult :=
  if valor > saldo then .insufficientBalance
  else if valor > 0 then .ok (saldo - valor)
  else .invalidAmount

/-- `ContaBancaria.depositar` of V2 (lines 346-378): rejects
`valor ≤ 0`, otherwise adds `valor` to the balance. -/
def ContaBancaria.depositar (saldo : Dinheiro) (valor : Dinheiro) : DepositoResult :=
  if valor ≤ 0 then .invalidAmount
  else .ok (saldo + valor)

/-- Count of `Saque` records in a V2 statement, as computed at the top of
`ContaCorrente.sacar` (lines 441-444). -/
def numeroSaques (extrato : List Transacao) : ℕ :=
  (extrato.filter (fun transacao => transacao.tipo == .saque)).length

/-- `ContaCorrente.sacar` of V2 (lines 417-460): checks the
per-transaction limit first, then the withdrawal-count cap, then defers
to `ContaBancaria.sacar`.  `limite` defaults to 500 and `limiteSaque`
to 3 in the source constructor. -/
def ContaCorrente.sacar (limite : Dinheiro) (limiteSaque : ℕ)
    (conta : Conta) (valor : Dinheiro) : SaqueResult :=
  let numero_saques := numeroSaques conta.extrato
  let excedeu_limite := valor > limite
  let excedeu_saques := numero_saques ≥ limiteSaque
  if excedeu_limite then .limitExceeded
  else if excedeu_saques then .dailyWithdrawalCapReached
  else ContaBancaria.sacar conta.saldo valor

/-- `ContaPoupanca.depositar` of V2 (lines 526-555): delegates to
`ContaBancaria.depositar` when `valor > 0`, otherwise rejects. -/
def ContaPoupanca.depositar (saldo : Dinheiro) (valor : Dinheiro) : DepositoResult :=
  if valor > 0 then ContaBancaria.depositar saldo valor
  else .invalidAmount

/-- Variant tag of a V2 account, carrying the variant-specific
parameters of the source constructors. -/
inductive TipoConta where
  | corrente (limite : Dinheiro) (limiteSaque : ℕ)
  | poupanca (depositoMinimo : Dinheiro)
deriving DecidableEq, Repr

/-- Dynamic dispatch of `conta.sacar` in V2: `ContaCorrente` overrides
the base method, `ContaPoupanca` inherits it. -/
def sacar : TipoConta → Conta → Dinheiro → SaqueResult
  | .corrente limite limiteSaque, conta, valor => ContaCorrente.sacar limite limiteSaque conta valor
  | .poupanca _, conta, valor => ContaBancaria.sacar conta.saldo valor

/-- Dynamic dispatch of `conta.depositar` in V2: `ContaPoupanca`
overrides the base method, `ContaCorrente` inherits it. -/
def depositar : TipoConta → Conta → Dinheiro → DepositoResult
  | .corrente _ _, conta, valor => ContaBancaria.depositar conta.saldo valor
  | .poupanca _, conta, valor => ContaPoupanca.depositar conta.saldo valor

/-- `ImprimirExtrato.adicionar_transacao` of V2 (lines 726-751): appends
one record at the end of the statement list. -/
def adicionar_transacao (extrato : List Transacao) (transacao : Transacao) : List Transacao :=
  extrato ++ [transacao]

/-- `Saque.registrar` of V2 (lines 813-841): calls `conta.sacar`; on
success appends one `Saque` record to the statement and returns it, on
failure returns `none` and leaves the account untouched. -/
def Saque.registrar (tipo : TipoConta) (conta : Conta) (valor : Dinheiro) :
    Option Transacao × Conta :=
  match sacar tipo conta valor with
  | .ok novoSaldo =>
    let transacao : Transacao := ⟨.saque, valor⟩
    (some transacao, ⟨novoSaldo, adicionar_transacao conta.extrato transacao⟩)
  | _ => (none, conta)

/-- `Deposito.registrar` of V2 (lines 870-898): calls `conta.depositar`;
on success appends one `Deposito` record to the statement and returns
it, on failure returns `none` and leaves the account untouched. -/
def Deposito.registrar (tipo : TipoConta) (conta : Conta) (valor : Dinheiro) :
    Option Transacao × Conta :=
  match depositar tipo conta valor with
  | .ok novoSaldo =>
    let transacao : Transacao := ⟨.deposito, valor⟩
    (some transacao, ⟨novoSaldo, adicionar_transacao conta.extrato transacao⟩)
  | _ => (none, conta)

/-- Registrar entry point: dispatch on the transaction kind, as
`Cliente.realizar_transacao` does with the transaction class. -/
def registrar (tipo : TipoConta) (conta : Conta) :
    TipoTransacao → Dinheiro → Option Transacao × Conta
  | .saque, valor => Saque.registrar tipo conta valor
  | .deposito, valor => Deposito.registrar tipo conta valor

/-- Sequential execution of a list of registrar calls against a V2
account, returning the final account state. -/
def runRegistrar (tipo : TipoConta) (conta : Conta) :
    List (TipoTransacao × Dinheiro) → Conta
  | [] => conta
  | op :: ops => runRegistrar tipo (registrar tipo conta op.1 op.2).2 ops

/-- Success flags of a sequence of registrar calls, one per call, in
call order. -/
def runRegistrarFlags (tipo : TipoConta) (conta : Conta) :
    List (TipoTransacao × Dinheiro) → List Bool
  | [] => []
  | op :: ops =>
    (registrar tipo conta op.1 op.2).1.isSome ::
      runRegistrarFlags tipo (registrar tipo conta op.1 op.2).2 ops

/-- Signed amount of a statement record: deposits count positive,
withdrawals negative. -/
def valorAssinado (transacao : Transacao) : Dinheiro :=
  match transacao.tipo with
  | .deposito => transacao.valor
  | .saque => -transacao.valor

/-- Sum of the signed amounts of a statement. -/
def somaAssinada (extrato : List Transacao) : Dinheiro :=
  (extrato.map valorAssinado).sum

/-- Savings-account branch of `criar_nova_conta` in V2 (lines
1267-1292), at the accepted loop iteration: a fresh account is built by
`ContaBancaria.criar_nova_conta` with `saldo = 0` and an empty
statement; when the entered value is at least 100 the workflow calls
`conta.depositar` directly (not the registrar), which updates the
balance only. -/
def criar_nova_conta_poupanca (valor : Dinheiro) : Conta :=
  let conta : Conta := { saldo := 0, extrato := [] }
  if valor ≥ 100 then
    match ContaPoupanca.depositar conta.saldo valor with
    | .ok novoSaldo => { conta with saldo := novoSaldo }
    | .invalidAmount => conta
  else conta

/-- Mutable state of one V1 account dictionary: `saldo`, `extrato`
(entry kind and value of each appended line; timestamps and formatting
are not modelled) and the `saques_diarios` counter (absent key read as
0, modelled as a counter starting at 0). -/
structure ContaV1 where
  saldo : Dinheiro
  extrato : List Transacao
  saquesDiarios : ℕ
deriving DecidableEq, Repr

/-- `ContaBancaria.sacar` of V1 (lines 82-146), for an account that was
found: rejects `valor ≤ 0`, then insufficient balance, then the
per-transaction limit, then the daily cap; otherwise subtracts the
value, appends a withdrawal line and increments `saques_diarios`. -/
def ContaBancariaV1.sacar (limite : Dinheiro) (limiteSaques : ℕ)
    (conta : ContaV1) (valor : Dinheiro) : SaqueResult × ContaV1 :=
  if valor ≤ 0 then (.invalidAmount, conta)
  else if valor > conta.saldo then (.insufficientBalance, conta)
  else if valor > limite then (.limitExceeded, conta)
  else if conta.saquesDiarios ≥ limiteSaques then (.dailyWithdrawalCapReached, conta)
  else
    (.ok (conta.saldo - valor),
      { saldo := conta.saldo - valor,
        extrato := conta.extrato ++ [⟨.saque, valor⟩],
        saquesDiarios := conta.saquesDiarios + 1 })

/-- `ContaBancaria.depositar` of V1 (lines 148-195), for an account that
was found: rejects `valor ≤ 0`, otherwise adds the value and appends a
deposit line; `saques_diarios` is not touched. -/
def ContaBancariaV1.depositar (conta : ContaV1) (valor : Dinheiro) : Bool × ContaV1 :=
  if valor ≤ 0 then (false, conta)
  else
    (true,
      { conta with
        saldo := conta.saldo + valor,
        extrato := conta.extrato ++ [⟨.deposito, valor⟩] })

/-- Sequential execution of a list of V1 withdraw/deposit calls against
one V1 account. -/
def runV1 (limite : Dinheiro) (limiteSaques : ℕ) (conta : ContaV1) :
    List (TipoTransacao × Dinheiro) → ContaV1
  | [] => conta
  | (.saque, valor) :: ops =>
    runV1 limite limiteSaques (ContaBancariaV1.sacar limite limiteSaques conta valor).2 ops
  | (.deposito, valor) :: ops =>
    runV1 limite limiteSaques (ContaBancariaV1.depositar conta valor).2 ops

/-- State of a V2 client as far as the bank-level operations observe it:
the identifying CPF/CNPJ (`filtrar_cliente` matches whichever the
object carries, and each object carries exactly one) and the list of
attached accounts, identified here by their account numbers. -/
structure ClienteV2 where
  cpf : String
  contas : List ℕ
deriving DecidableEq, Repr

/-- `filtrar_cliente` of V2 (lines 948-974): first client, in list
order, whose CPF/CNPJ equals the identifier, else `none`. -/
def filtrar_cliente (identificador : String) (clientes : List ClienteV2) : Option ClienteV2 :=
  clientes.find? (fun cliente => cliente.cpf == identificador)

/-- `Banco.adicionar_cliente` of V2 (lines 638-657): unconditionally
appends the client to the bank's list. -/
def Banco.adicionar_cliente (clientes : List ClienteV2) (cliente : ClienteV2) :
    List ClienteV2 :=
  clientes ++ [cliente]

/-- Registration path of `cadastrar_cliente` in V2 (lines 977-1051),
after the interactive prompts: if `filtrar_cliente` finds the
identifier the function returns with the list unchanged, otherwise a
new client holding that identifier (and no accounts) is appended. -/
def cadastrar_cliente (clientes : List ClienteV2) (identificador : String) :
    List ClienteV2 :=
  match filtrar_cliente identificador clientes with
  | some _ => clientes
  | none => clientes ++ [{ cpf := identificador, contas := [] }]

/-- `excluir_cliente` of V2 (lines 1551-1601), acting on the first
client whose identifier matches.  `confirmarContas` is the answer to
the cascade prompt (asked only when the client has accounts) and
`confirmarCliente` the answer to the final deletion prompt.  When the
client has accounts and the cascade is declined the function returns at
once; when the cascade is confirmed every account is removed from the
client's list before the final prompt, so declining the final prompt
keeps the client with its account list already emptied.  (The `contas`
argument of the source is a list freshly rebuilt by
`Banco.listar_contas` at each call, so removals from it do not survive
the call and are not modelled.) -/
def excluir_cliente (clientes : List ClienteV2) (identificador : String)
    (confirmarContas : Bool) (confirmarCliente : Bool) : List ClienteV2 :=
  match clientes with
  | [] => []
  | cliente :: resto =>
    if cliente.cpf == identificador then
      if cliente.contas.isEmpty then
        if confirmarCliente then resto else cliente :: resto
      else
        if confirmarContas then
          if confirmarCliente then resto else { cliente with contas := [] } :: resto
        else cliente :: resto
    else cliente :: excluir_cliente resto identificador confirmarContas confirmarCliente

/-- State of a V1 client dictionary as the deletion operation observes
it: its CPF. -/
structure ClienteV1 where
  cpf : String
deriving DecidableEq, Repr

/-- State of a V1 account dictionary as the deletion operation observes
it: its number and the CPF of the client dictionary it embeds. -/
structure ContaRecV1 where
  numeroConta : ℕ
  clienteCpf : String
deriving DecidableEq, Repr

/-- `filtrar_cliente` of V1 (lines 316-340): first client with the
given CPF, else `none`. -/
def ContaBancariaV1.filtrar_cliente (cpf : String) (clientes : List ClienteV1) :
    Option ClienteV1 :=
  clientes.find? (fun cliente => cliente.cpf == cpf)

/-- `excluir_cliente` of V1 (lines 448-483): if the client is found and
the single confirmation is given, the client is removed from the list
and the account list is rebuilt without every account whose client CPF
matches; both removals happen in the same branch with no input between
them.  Otherwise nothing changes. -/
def ContaBancariaV1.excluir_cliente (clientes : List ClienteV1) (contas : List ContaRecV1)
    (cpf : String) (confirmar : Bool) : List ClienteV1 × List ContaRecV1 :=
  match ContaBancariaV1.filtrar_cliente cpf clientes with
  | none => (clientes, contas)
  | some cliente =>
    if confirmar then
      (clientes.erase cliente, contas.filter (fun conta => !(conta.clienteCpf == cpf)))
    else (clientes, contas)

lemma sacarBase_ok {saldo valor s : Dinheiro}
    (h : ContaBancaria.sacar saldo valor = .ok s) : s = saldo - valor := by
  unfold ContaBancaria.sacar at h
  split at h
  · simp at h
  · split at h
    · exact (SaqueResult.ok.inj h).symm
    · simp at h

lemma sacar_ok {tipo : TipoConta} {conta : Conta} {valor s : Dinheiro}
    (h : sacar tipo conta valor = .ok s) : s = conta.saldo - valor := by
  cases tipo with
  | corrente limite limiteSaque =>
    unfold sacar ContaCorrente.sacar at h
    simp only at h
    split at h
    · simp at h
    · split at h
      · simp at h
      · exact sacarBase_ok h
  | poupanca dm =>
    exact sacarBase_ok h

lemma depositarBase_ok {saldo valor s : Dinheiro}
    (h : ContaBancaria.depositar saldo valor = .ok s) : s = saldo + valor := by
  unfold ContaBancaria.depositar at h
  split at h
  · simp at h
  · exact (DepositoResult.ok.inj h).symm

lemma depositar_ok {tipo : TipoConta} {conta : Conta} {valor s : Dinheiro}
    (h : depositar tipo conta valor = .ok s) : s = conta.saldo + valor := by
  cases tipo with
  | corrente limite limiteSaque => exact depositarBase_ok h
  | poupanca dm =>
    have h' : ContaPoupanca.depositar conta.saldo valor = .ok s := h
    unfold ContaPoupanca.depositar at h'
    split at h'
    · exact depositarBase_ok h'
    · simp at h'

lemma somaAssinada_append (extrato : List Transacao) (transacao : Transacao) :
    somaAssinada (extrato ++ [transacao]) = somaAssinada extrato + valorAssinado transacao := by
  simp [somaAssinada]

lemma registrar_invariant (tipo : TipoConta) (conta : Conta) (k : TipoTransacao)
    (valor : Dinheiro) (h : conta.saldo = somaAssinada conta.extrato) :
    (registrar tipo conta k valor).2.saldo
      = somaAssinada (registrar tipo conta k valor).2.extrato := by
  cases k with
  | saque =>
    show (Saque.registrar tipo conta valor).2.saldo
      = somaAssinada (Saque.registrar tipo conta valor).2.extrato
    unfold Saque.registrar
    cases hs : sacar tipo conta valor with
    | ok s =>
      have hv := sacar_ok hs
      simp [adicionar_transacao, somaAssinada_append, valorAssinado, hv, h]
      ring
    | insufficientBalance => simpa using h
    | invalidAmount => simpa using h
    | limitExceeded => simpa using h
    | dailyWithdrawalCapReached => simpa using h
  | deposito =>
    show (Deposito.registrar tipo conta valor).2.saldo
      = somaAssinada (Deposito.registrar tipo conta valor).2.extrato
    unfold Deposito.registrar
    cases hd : depositar tipo conta valor with
    | ok s =>
      have hv := depositar_ok hd
      simp [adicionar_transacao, somaAssinada_append, valorAssinado, hv, h]
    | invalidAmount => simpa using h

lemma runRegistrar_invariant (tipo : TipoConta) (ops : List (TipoTransacao × Dinheiro)) :
    ∀ conta : Conta, conta.saldo = somaAssinada conta.extrato →
      (runRegistrar tipo conta ops).saldo
        = somaAssinada (runRegistrar tipo conta ops).extrato := by
  induction ops with
  | nil => intro conta h; simpa [runRegistrar] using h
  | cons op ops ih =>
    intro conta h
    rw [runRegistrar]
    exact ih _ (registrar_invariant tipo conta op.1 op.2 h)

/-- C1: starting from a freshly created account (balance 0, empty
statement), after any sequence of registrar calls the balance equals
the sum of the signed amounts of the statement records, deposits
positive and withdrawals negative. -/
theorem c1_saldo_igual_soma_assinada (tipo : TipoConta)
    (ops : List (TipoTransacao × Dinheiro)) :
    (runRegistrar tipo ⟨0, []⟩ ops).saldo
      = somaAssinada (runRegistrar tipo ⟨0, []⟩ ops).extrato :=
  runRegistrar_invariant tipo ops ⟨0, []⟩ (by simp [somaAssinada])

lemma registrar_none_eq {tipo : TipoConta} {conta : Conta} {k : TipoTransacao}
    {valor : Dinheiro} (h : (registrar tipo conta k valor).1 = none) :
    (registrar tipo conta k valor).2 = conta := by
  cases k with
  | saque =>
    show (Saque.registrar tipo conta valor).2 = conta
    unfold Saque.registrar
    cases hs : sacar tipo conta valor with
    | ok s =>
      exfalso
      have : (Saque.registrar tipo conta valor).1 = none := h
      rw [Saque.registrar, hs] at this
      simp at this
    | insufficientBalance => rfl
    | invalidAmount => rfl
    | limitExceeded => rfl
    | dailyWithdrawalCapReached => rfl
  | deposito =>
    show (Deposito.registrar tipo conta valor).2 = conta
    unfold Deposito.registrar
    cases hd : depositar tipo conta valor with
    | ok s =>
      exfalso
      have : (Deposito.registrar tipo conta valor).1 = none := h
      rw [Deposito.registrar, hd] at this
      simp at this
    | invalidAmount => rfl

lemma registrar_some_eq {tipo : TipoConta} {conta : Conta} {k : TipoTransacao}
    {valor : Dinheiro} {t : Transacao} (h : (registrar tipo conta k valor).1 = some t) :
    (registrar tipo conta k valor).2.extrato = conta.extrato ++ [t] := by
  cases k with
  | saque =>
    show (Saque.registrar tipo conta valor).2.extrato = conta.extrato ++ [t]
    have h' : (Saque.registrar tipo conta valor).1 = some t := h
    unfold Saque.registrar at h' ⊢
    cases hs : sacar tipo conta valor with
    | ok s =>
      rw [hs] at h'
      simp only [Option.some.injEq] at h'
      simp [adicionar_transacao, h']
    | insufficientBalance => rw [hs] at h'; simp at h'
    | invalidAmount => rw [hs] at h'; simp at h'
    | limitExceeded => rw [hs] at h'; simp at h'
    | dailyWithdrawalCapReached => rw [hs] at h'; simp at h'
  | deposito =>
    show (Deposito.registrar tipo conta valor).2.extrato = conta.extrato ++ [t]
    have h' : (Deposito.registrar tipo conta valor).1 = some t := h
    unfold Deposito.registrar at h' ⊢
    cases hd : depositar tipo conta valor with
    | ok s =>
      rw [hd] at h'
      simp only [Option.some.injEq] at h'
      simp [adicionar_transacao, h']
    | invalidAmount => rw [hd] at h'; simp at h'

lemma registrar_extrato_length (tipo : TipoConta) (conta : Conta) (k : TipoTransacao)
    (valor : Dinheiro) :
    (registrar tipo conta k valor).2.extrato.length
      = conta.extrato.length + (if (registrar tipo conta k valor).1.isSome then 1 else 0) := by
  cases hr : (registrar tipo conta k valor).1 with
  | none => rw [registrar_none_eq hr]; simp
  | some t => rw [registrar_some_eq hr]; simp

lemma runRegistrar_length (tipo : TipoConta) (ops : List (TipoTransacao × Dinheiro)) :
    ∀ conta : Conta,
      (runRegistrar tipo conta ops).extrato.length
        = conta.extrato.length + (runRegistrarFlags tipo conta ops).count true := by
  induction ops with
  | nil => intro conta; simp [runRegistrar, runRegistrarFlags]
  | cons op ops ih =>
    intro conta
    rw [runRegistrar, runRegistrarFlags, ih, registrar_extrato_length tipo conta op.1 op.2]
    by_cases hb : (registrar tipo conta op.1 op.2).1.isSome
    · simp [hb, List.count_cons]
      omega
    · simp [hb, List.count_cons]

/-- C7: the statement length of a V2 account equals the number of
registrar calls against it that succeeded; each `registrar` call
appends exactly one record on success and leaves the account unchanged
(balance and statement) on failure. -/
theorem c7_extrato_conta_sucessos (tipo : TipoConta) (conta : Conta) :
    ((∀ ops : List (TipoTransacao × Dinheiro),
        (runRegistrar tipo conta ops).extrato.length
          = conta.extrato.length + (runRegistrarFlags tipo conta ops).count true)
      ∧ (∀ (k : TipoTransacao) (valor : Dinheiro),
          (registrar tipo conta k valor).1 = none → (registrar tipo conta k valor).2 = conta)
      ∧ (∀ (k : TipoTransacao) (valor : Dinheiro) (t : Transacao),
          (registrar tipo conta k valor).1 = some t →
            (registrar tipo conta k valor).2.extrato = conta.extrato ++ [t])) :=
  ⟨fun ops => runRegistrar_length tipo ops conta,
   fun _ _ h => registrar_none_eq h,
   fun _ _ _ h => registrar_some_eq h⟩

/-- Witness for C7 at a concrete account: two deposits and one
rejected withdrawal against a fresh savings account leave a statement
of length 2, and a rejected withdrawal leaves the account unchanged. -/
theorem c7_extrato_conta_sucessos_witness :
    (runRegistrar (.poupanca 100) ⟨0, []⟩
        [(.deposito, 50), (.saque, 80), (.deposito, 20)]).extrato.length
      = (0 : ℕ) + (runRegistrarFlags (.poupanca 100) ⟨0, []⟩
          [(.deposito, 50), (.saque, 80), (.deposito, 20)]).count true
    ∧ (registrar (.poupanca 100) ⟨0, []⟩ .saque 80).1 = none
    ∧ (registrar (.poupanca 100) ⟨0, []⟩ .saque 80).2 = ⟨0, []⟩ := by
  refine ⟨(c7_extrato_conta_sucessos (.poupanca 100) ⟨0, []⟩).1
    [(.deposito, 50), (.saque, 80), (.deposito, 20)], ?_, ?_⟩
  · decide
  · exact (c7_extrato_conta_sucessos (.poupanca 100) ⟨0, []⟩).2.1 .saque 80 (by decide)

/-- C9: opening a savings account through the V2 workflow with an
initial value of at least the minimum applies the value directly to the
balance without the registrar, so the new account has balance `valor`,
an empty statement, and a balance different from the signed sum of its
statement records. -/
theorem c9_abertura_poupanca_sem_registrar (valor : Dinheiro) (h : 100 ≤ valor) :
    (criar_nova_conta_poupanca valor).saldo = valor
    ∧ (criar_nova_conta_poupanca valor).extrato = []
    ∧ (criar_nova_conta_poupanca valor).saldo
        ≠ somaAssinada (criar_nova_conta_poupanca valor).extrato := by
  have hpos : (0 : ℚ) < valor := lt_of_lt_of_le (by norm_num) h
  have hconta : criar_nova_conta_poupanca valor = { saldo := valor, extrato := [] } := by
    unfold criar_nova_conta_poupanca ContaPoupanca.depositar ContaBancaria.depositar
    rw [if_pos h, if_pos hpos, if_neg (not_le.mpr hpos)]
    simp
  rw [hconta]
  refine ⟨rfl, rfl, ?_⟩
  simp [somaAssinada]
  linarith

/-- Witness for C9 at the concrete initial value 150. -/
theorem c9_abertura_poupanca_sem_registrar_witness :
    (criar_nova_conta_poupanca 150).saldo = 150
    ∧ (criar_nova_conta_poupanca 150).extrato = []
    ∧ (criar_nova_conta_poupanca 150).saldo
        ≠ somaAssinada (criar_nova_conta_poupanca 150).extrato :=
  c9_abertura_poupanca_sem_registrar 150 (by decide)

/-- C10: a V2 savings account inherits the base `sacar` unchanged, so
every withdrawal with `0 < valor ≤ saldo` succeeds and reduces the
balance by exactly `valor`, with no per-transaction ceiling and no
withdrawal-count cap consulted; through the registrar it also appends
exactly the corresponding withdrawal record. -/
theorem c10_poupanca_saque_sem_limites (dm : Dinheiro) (conta : Conta) (valor : Dinheiro)
    (h0 : 0 < valor) (h1 : valor ≤ conta.saldo) :
    sacar (.poupanca dm) conta valor = .ok (conta.saldo - valor)
    ∧ Saque.registrar (.poupanca dm) conta valor
        = (some ⟨.saque, valor⟩,
           ⟨conta.saldo - valor, conta.extrato ++ [⟨.saque, valor⟩]⟩) := by
  have hs : sacar (.poupanca dm) conta valor = .ok (conta.saldo - valor) := by
    show ContaBancaria.sacar conta.saldo valor = .ok (conta.saldo - valor)
    unfold ContaBancaria.sacar
    rw [if_neg (not_lt.mpr h1), if_pos h0]
  refine ⟨hs, ?_⟩
  unfold Saque.registrar
  rw [hs]
  rfl

/-- Witness for C10: withdrawing 900 from a savings account holding
1000 with three prior withdrawal records succeeds, although 900 exceeds
the checking ceiling of 500 and the prior count equals the checking
cap. -/
theorem c10_poupanca_saque_sem_limites_witness :
    sacar (.poupanca 100)
        ⟨1000, [⟨.saque, 10⟩, ⟨.saque, 10⟩, ⟨.saque, 10⟩]⟩ 900
      = .ok ((1000 : ℚ) - 900)
    ∧ Saque.registrar (.poupanca 100)
        ⟨1000, [⟨.saque, 10⟩, ⟨.saque, 10⟩, ⟨.saque, 10⟩]⟩ 900
      = (some ⟨.saque, 900⟩,
         ⟨(1000 : ℚ) - 900,
          [⟨.saque, 10⟩, ⟨.saque, 10⟩, ⟨.saque, 10⟩] ++ [⟨.saque, 900⟩]⟩) :=
  c10_poupanca_saque_sem_limites 100
    ⟨1000, [⟨.saque, 10⟩, ⟨.saque, 10⟩, ⟨.saque, 10⟩]⟩ 900
    (by decide) (by decide)

lemma numeroSaques_append_le (extrato resto : List Transacao) :
    numeroSaques extrato ≤ numeroSaques (extrato ++ resto) := by
  simp [numeroSaques, List.filter_append]

lemma numeroSaques_mono_registrar (tipo : TipoConta) (conta : Conta)
    (k : TipoTransacao) (valor : Dinheiro) :
    numeroSaques conta.extrato ≤ numeroSaques (registrar tipo conta k valor).2.extrato := by
  cases hr : (registrar tipo conta k valor).1 with
  | none => rw [registrar_none_eq hr]
  | some t => rw [registrar_some_eq hr]; exact numeroSaques_append_le _ _

lemma numeroSaques_mono_run (tipo : TipoConta) (ops : List (TipoTransacao × Dinheiro)) :
    ∀ conta : Conta,
      numeroSaques conta.extrato ≤ numeroSaques (runRegistrar tipo conta ops).extrato := by
  induction ops with
  | nil => intro conta; rw [runRegistrar]
  | cons op ops ih =>
    intro conta
    rw [runRegistrar]
    exact le_trans (numeroSaques_mono_registrar tipo conta op.1 op.2) (ih _)

lemma saqueRegistrar_some {tipo : TipoConta} {conta : Conta} {valor : Dinheiro}
    {t : Transacao} (h : (Saque.registrar tipo conta valor).1 = some t) :
    t = ⟨.saque, valor⟩
      ∧ (Saque.registrar tipo conta valor).2.extrato
          = conta.extrato ++ [(⟨.saque, valor⟩ : Transacao)] := by
  unfold Saque.registrar at h ⊢
  cases hs : sacar tipo conta valor with
  | ok s => rw [hs] at h; simp only [Option.some.injEq] at h; exact ⟨h.symm, rfl⟩
  | insufficientBalance => rw [hs] at h; simp at h
  | invalidAmount => rw [hs] at h; simp at h
  | limitExceeded => rw [hs] at h; simp at h
  | dailyWithdrawalCapReached => rw [hs] at h; simp at h

lemma depositoRegistrar_some {tipo : TipoConta} {conta : Conta} {valor : Dinheiro}
    {t : Transacao} (h : (Deposito.registrar tipo conta valor).1 = some t) :
    t = ⟨.deposito, valor⟩
      ∧ (Deposito.registrar tipo conta valor).2.extrato
          = conta.extrato ++ [(⟨.deposito, valor⟩ : Transacao)] := by
  unfold Deposito.registrar at h ⊢
  cases hd : depositar tipo conta valor with
  | ok s => rw [hd] at h; simp only [Option.some.injEq] at h; exact ⟨h.symm, rfl⟩
  | invalidAmount => rw [hd] at h; simp at h

lemma numeroSaques_append_saque (extrato : List Transacao) (valor : Dinheiro) :
    numeroSaques (extrato ++ [(⟨.saque, valor⟩ : Transacao)]) = numeroSaques extrato + 1 := by
  simp [numeroSaques, List.filter_append]

lemma numeroSaques_append_deposito (extrato : List Transacao) (valor : Dinheiro) :
    numeroSaques (extrato ++ [(⟨.deposito, valor⟩ : Transacao)]) = numeroSaques extrato := by
  simp [numeroSaques, List.filter_append]

lemma corrente_cap_sacar {limite : Dinheiro} {limiteSaque : ℕ} {conta : Conta}
    {valor : Dinheiro} (h : numeroSaques conta.extrato ≥ limiteSaque) :
    ContaCorrente.sacar limite limiteSaque conta valor
      = (if valor > limite then .limitExceeded else .dailyWithdrawalCapReached) := by
  unfold ContaCorrente.sacar
  simp only
  by_cases hl : valor > limite
  · rw [if_pos hl, if_pos hl]
  · rw [if_neg hl, if_neg hl, if_pos h]

lemma corrente_cap_registrar {limite : Dinheiro} {limiteSaque : ℕ} {conta : Conta}
    {valor : Dinheiro} (h : numeroSaques conta.extrato ≥ limiteSaque) :
    Saque.registrar (.corrente limite limiteSaque) conta valor = (none, conta) := by
  unfold Saque.registrar
  have hs : sacar (.corrente limite limiteSaque) conta valor
      = (if valor > limite then .limitExceeded else .dailyWithdrawalCapReached) :=
    corrente_cap_sacar h
  rw [hs]
  by_cases hl : valor > limite
  · rw [if_pos hl]
  · rw [if_neg hl]

lemma sacarV1_branches (limite : Dinheiro) (limiteSaques : ℕ) (conta : ContaV1)
    (valor : Dinheiro) :
    ((∀ s, (ContaBancariaV1.sacar limite limiteSaques conta valor).1 ≠ .ok s)
        ∧ (ContaBancariaV1.sacar limite limiteSaques conta valor).2 = conta)
      ∨ ((ContaBancariaV1.sacar limite limiteSaques conta valor).1
            = .ok (conta.saldo - valor)
          ∧ (ContaBancariaV1.sacar limite limiteSaques conta valor).2.saquesDiarios
              = conta.saquesDiarios + 1) := by
  unfold ContaBancariaV1.sacar
  split
  · exact Or.inl ⟨fun s h => by simp at h, rfl⟩
  · split
    · exact Or.inl ⟨fun s h => by simp at h, rfl⟩
    · split
      · exact Or.inl ⟨fun s h => by simp at h, rfl⟩
      · split
        · exact Or.inl ⟨fun s h => by simp at h, rfl⟩
        · exact Or.inr ⟨rfl, rfl⟩

lemma sacarV1_ok_inc {limite : Dinheiro} {limiteSaques : ℕ} {conta : ContaV1}
    {valor s : Dinheiro}
    (h : (ContaBancariaV1.sacar limite limiteSaques conta valor).1 = .ok s) :
    (ContaBancariaV1.sacar limite limiteSaques conta valor).2.saquesDiarios
      = conta.saquesDiarios + 1 := by
  rcases sacarV1_branches limite limiteSaques conta valor with ⟨h1, _⟩ | ⟨_, h2⟩
  · exact absurd h (h1 s)
  · exact h2

lemma sacarV1_fail_eq {limite : Dinheiro} {limiteSaques : ℕ} {conta : ContaV1}
    {valor : Dinheiro}
    (h : ∀ s, (ContaBancariaV1.sacar limite limiteSaques conta valor).1 ≠ .ok s) :
    (ContaBancariaV1.sacar limite limiteSaques conta valor).2 = conta := by
  rcases sacarV1_branches limite limiteSaques conta valor with ⟨_, h1⟩ | ⟨h2, _⟩
  · exact h1
  · exact absurd h2 (h _)

lemma depositarV1_saques (conta : ContaV1) (valor : Dinheiro) :
    (ContaBancariaV1.depositar conta valor).2.saquesDiarios = conta.saquesDiarios := by
  unfold ContaBancariaV1.depositar
  split
  · rfl
  · rfl

lemma sacarV1_saques_mono (limite : Dinheiro) (limiteSaques : ℕ) (conta : ContaV1)
    (valor : Dinheiro) :
    conta.saquesDiarios
      ≤ (ContaBancariaV1.sacar limite limiteSaques conta valor).2.saquesDiarios := by
  rcases sacarV1_branches limite limiteSaques conta valor with ⟨_, h1⟩ | ⟨_, h2⟩
  · rw [h1]
  · rw [h2]; exact Nat.le_succ _

lemma runV1_saques_mono (limite : Dinheiro) (limiteSaques : ℕ)
    (ops : List (TipoTransacao × Dinheiro)) :
    ∀ conta : ContaV1,
      conta.saquesDiarios ≤ (runV1 limite limiteSaques conta ops).saquesDiarios := by
  induction ops with
  | nil => intro conta; rw [runV1]
  | cons op ops ih =>
    intro conta
    obtain ⟨k, v⟩ := op
    cases k with
    | saque =>
      rw [runV1]
      exact le_trans (sacarV1_saques_mono limite limiteSaques conta v) (ih _)
    | deposito =>
      rw [runV1]
      calc conta.saquesDiarios
          = (ContaBancariaV1.depositar conta v).2.saquesDiarios :=
            (depositarV1_saques conta v).symm
        _ ≤ _ := ih _

lemma sacarV1_cap_reject {limite : Dinheiro} {limiteSaques : ℕ} {conta : ContaV1}
    {valor : Dinheiro} (h : conta.saquesDiarios ≥ limiteSaques) :
    (∀ s, (ContaBancariaV1.sacar limite limiteSaques conta valor).1 ≠ .ok s)
      ∧ (ContaBancariaV1.sacar limite limiteSaques conta valor).2 = conta := by
  unfold ContaBancariaV1.sacar
  by_cases h1 : valor ≤ 0
  · rw [if_pos h1]; exact ⟨fun s h' => by simp at h', rfl⟩
  · rw [if_neg h1]
    by_cases h2 : valor > conta.saldo
    · rw [if_pos h2]; exact ⟨fun s h' => by simp at h', rfl⟩
    · rw [if_neg h2]
      by_cases h3 : valor > limite
      · rw [if_pos h3]; exact ⟨fun s h' => by simp at h', rfl⟩
      · rw [if_neg h3, if_pos h]
        exact ⟨fun s h' => by simp at h', rfl⟩

/-- C8: the withdrawal count consulted by the cap rule is
lifetime-scoped in both variants and never reset.  In V2 a successful
`Saque.registrar` appends one withdrawal record (count + 1), a
`Deposito.registrar` never changes the count, the count never decreases
under any registrar sequence, and once a checking account's count has
reached the cap every later withdrawal through the registrar fails and
leaves the account unchanged, whatever operations ran in between.  In
V1 a successful withdrawal increments `saques_diarios` by exactly one,
deposits never touch it, it never decreases under any operation
sequence, and once it has reached the cap no later withdrawal on that
account ever succeeds. -/
theorem c8_contador_saques_vitalicio :
    (∀ (tipo : TipoConta) (conta : Conta) (valor : Dinheiro) (t : Transacao),
        (Saque.registrar tipo conta valor).1 = some t →
          numeroSaques (Saque.registrar tipo conta valor).2.extrato
            = numeroSaques conta.extrato + 1)
    ∧ (∀ (tipo : TipoConta) (conta : Conta) (valor : Dinheiro),
        numeroSaques (Deposito.registrar tipo conta valor).2.extrato
          = numeroSaques conta.extrato)
    ∧ (∀ (tipo : TipoConta) (conta : Conta) (ops : List (TipoTransacao × Dinheiro)),
        numeroSaques conta.extrato ≤ numeroSaques (runRegistrar tipo conta ops).extrato)
    ∧ (∀ (limite : Dinheiro) (limiteSaque : ℕ) (conta : Conta)
          (ops : List (TipoTransacao × Dinheiro)) (valor : Dinheiro),
        numeroSaques conta.extrato ≥ limiteSaque →
          Saque.registrar (.corrente limite limiteSaque)
              (runRegistrar (.corrente limite limiteSaque) conta ops) valor
            = (none, runRegistrar (.corrente limite limiteSaque) conta ops))
    ∧ (∀ (limite : Dinheiro) (limiteSaques : ℕ) (conta : ContaV1) (valor s : Dinheiro),
        (ContaBancariaV1.sacar limite limiteSaques conta valor).1 = .ok s →
          (ContaBancariaV1.sacar limite limiteSaques conta valor).2.saquesDiarios
            = conta.saquesDiarios + 1)
    ∧ (∀ (conta : ContaV1) (valor : Dinheiro),
        (ContaBancariaV1.depositar conta valor).2.saquesDiarios = conta.saquesDiarios)
    ∧ (∀ (limite : Dinheiro) (limiteSaques : ℕ) (conta : ContaV1)
          (ops : List (TipoTransacao × Dinheiro)),
        conta.saquesDiarios ≤ (runV1 limite limiteSaques conta ops).saquesDiarios)
    ∧ (∀ (limite : Dinheiro) (limiteSaques : ℕ) (conta : ContaV1)
          (ops : List (TipoTransacao × Dinheiro)) (valor s : Dinheiro),
        conta.saquesDiarios ≥ limiteSaques →
          (ContaBancariaV1.sacar limite limiteSaques
              (runV1 limite limiteSaques conta ops) valor).1 ≠ .ok s) := by
  refine ⟨?_, ?_, ?_, ?_, ?_, ?_, ?_, ?_⟩
  · intro tipo conta valor t h
    rw [(saqueRegistrar_some h).2, numeroSaques_append_saque]
  · intro tipo conta valor
    cases hr : (Deposito.registrar tipo conta valor).1 with
    | none =>
      have hr' : (registrar tipo conta .deposito valor).1 = none := hr
      show numeroSaques (registrar tipo conta .deposito valor).2.extrato
        = numeroSaques conta.extrato
      rw [registrar_none_eq hr']
    | some t =>
      rw [(depositoRegistrar_some hr).2, numeroSaques_append_deposito]
  · intro tipo conta ops
    exact numeroSaques_mono_run tipo ops conta
  · intro limite limiteSaque conta ops valor h
    exact corrente_cap_registrar
      (le_trans h (numeroSaques_mono_run (.corrente limite limiteSaque) ops conta))
  · intro limite limiteSaques conta valor s h
    exact sacarV1_ok_inc h
  · intro conta valor
    exact depositarV1_saques conta valor
  · intro limite limiteSaques conta ops
    exact runV1_saques_mono limite limiteSaques ops conta
  · intro limite limiteSaques conta ops valor s h
    exact (sacarV1_cap_reject
      (le_trans h (runV1_saques_mono limite limiteSaques ops conta))).1 s

/-- Witness for C8 at concrete accounts: a successful withdrawal
raises the V2 count from 0 to 1; a checking account already holding
three withdrawal records still rejects a withdrawal of 50 after an
intervening deposit of 100; a successful V1 withdrawal raises
`saques_diarios` from 0 to 1; and a V1 account with `saques_diarios`
at the cap still rejects after an intervening deposit. -/
theorem c8_contador_saques_vitalicio_witness :
    ((Saque.registrar (.corrente 500 3) ⟨1000, []⟩ 40).1
        = some (⟨.saque, 40⟩ : Transacao)
      ∧ numeroSaques (Saque.registrar (.corrente 500 3) ⟨1000, []⟩ 40).2.extrato
          = numeroSaques (⟨1000, []⟩ : Conta).extrato + 1)
    ∧ (numeroSaques (⟨900, [⟨.saque, 5⟩, ⟨.saque, 5⟩, ⟨.saque, 5⟩]⟩ : Conta).extrato ≥ 3
      ∧ Saque.registrar (.corrente 500 3)
            (runRegistrar (.corrente 500 3)
              ⟨900, [⟨.saque, 5⟩, ⟨.saque, 5⟩, ⟨.saque, 5⟩]⟩ [(.deposito, 100)]) 50
          = (none, runRegistrar (.corrente 500 3)
              ⟨900, [⟨.saque, 5⟩, ⟨.saque, 5⟩, ⟨.saque, 5⟩]⟩ [(.deposito, 100)]))
    ∧ ((ContaBancariaV1.sacar 500 3 ⟨1000, [], 0⟩ 40).1 = .ok (1000 - 40)
      ∧ (ContaBancariaV1.sacar 500 3 ⟨1000, [], 0⟩ 40).2.saquesDiarios = 0 + 1)
    ∧ ((⟨100, [], 3⟩ : ContaV1).saquesDiarios ≥ 3
      ∧ (ContaBancariaV1.sacar 500 3
            (runV1 500 3 ⟨100, [], 3⟩ [(.deposito, 100)]) 50).1 ≠ .ok 50) := by
  refine ⟨⟨by decide, ?_⟩, ⟨by decide, ?_⟩, ⟨by rfl, ?_⟩, ⟨by decide, ?_⟩⟩
  · exact c8_contador_saques_vitalicio.1 (.corrente 500 3) ⟨1000, []⟩ 40
      ⟨.saque, 40⟩ (by decide)
  · exact c8_contador_saques_vitalicio.2.2.2.1 500 3
      ⟨900, [⟨.saque, 5⟩, ⟨.saque, 5⟩, ⟨.saque, 5⟩]⟩ [(.deposito, 100)] 50 (by decide)
  · exact c8_contador_saques_vitalicio.2.2.2.2.1 500 3 ⟨1000, [], 0⟩ 40 (1000 - 40)
      (by rfl)
  · exact c8_contador_saques_vitalicio.2.2.2.2.2.2.2 500 3 ⟨100, [], 3⟩
      [(.deposito, 100)] 50 50 (by decide)

/-- Counterexample to C3: a V2 checking account whose statement already
holds three withdrawal records (cap 3) rejects a withdrawal of 600 with
the limit-exceeded kind, not the daily-cap kind, because
`ContaCorrente.sacar` tests the per-transaction limit first. -/
theorem c3_counterexample :
    ContaCorrente.sacar 500 3
        ⟨1000, [⟨.saque, 100⟩, ⟨.saque, 100⟩, ⟨.saque, 100⟩]⟩ 600
      = .limitExceeded
    ∧ numeroSaques [⟨.saque, 100⟩, ⟨.saque, 100⟩, ⟨.saque, 100⟩] ≥ 3
    ∧ SaqueResult.limitExceeded ≠ .dailyWithdrawalCapReached := by
  decide

/-- C3 as amended: once the recorded withdrawal count has reached the
cap, every further withdrawal is rejected and leaves the account
unchanged; the rejection kind is the daily-cap kind whenever the amount
does not exceed the per-transaction ceiling (in V2) or additionally is
positive and within the balance (in V1); for amounts failing those
earlier checks the rejection carries the earlier check's kind. -/
theorem c3_cap_rejeita_saques (limite : Dinheiro) (limiteSaque limiteSaques : ℕ)
    (conta : Conta) (contaV1 : ContaV1) (valor : Dinheiro) :
    (numeroSaques conta.extrato ≥ limiteSaque →
        (valor ≤ limite →
          ContaCorrente.sacar limite limiteSaque conta valor = .dailyWithdrawalCapReached)
        ∧ Saque.registrar (.corrente limite limiteSaque) conta valor = (none, conta))
    ∧ (contaV1.saquesDiarios ≥ limiteSaques →
        ((0 < valor → valor ≤ contaV1.saldo → valor ≤ limite →
            (ContaBancariaV1.sacar limite limiteSaques contaV1 valor).1
              = .dailyWithdrawalCapReached)
          ∧ (ContaBancariaV1.sacar limite limiteSaques contaV1 valor).2 = contaV1)) := by
  constructor
  · intro hcap
    refine ⟨?_, corrente_cap_registrar hcap⟩
    intro hv
    rw [corrente_cap_sacar hcap, if_neg (not_lt.mpr hv)]
  · intro hcap
    refine ⟨?_, (sacarV1_cap_reject hcap).2⟩
    intro h0 hsaldo hlim
    unfold ContaBancariaV1.sacar
    rw [if_neg (not_le.mpr h0), if_neg (not_lt.mpr hsaldo), if_neg (not_lt.mpr hlim),
      if_pos hcap]

/-- Witness for the amended C3: both variants at the cap reject a
withdrawal of 100 with the daily-cap kind and leave the account
unchanged. -/
theorem c3_cap_rejeita_saques_witness :
    (numeroSaques [⟨.saque, 1⟩, ⟨.saque, 1⟩, ⟨.saque, 1⟩] ≥ 3
      ∧ ContaCorrente.sacar 500 3 ⟨1000, [⟨.saque, 1⟩, ⟨.saque, 1⟩, ⟨.saque, 1⟩]⟩ 100
          = .dailyWithdrawalCapReached
      ∧ Saque.registrar (.corrente 500 3)
            ⟨1000, [⟨.saque, 1⟩, ⟨.saque, 1⟩, ⟨.saque, 1⟩]⟩ 100
          = (none, ⟨1000, [⟨.saque, 1⟩, ⟨.saque, 1⟩, ⟨.saque, 1⟩]⟩))
    ∧ ((⟨1000, [], 3⟩ : ContaV1).saquesDiarios ≥ 3
      ∧ (ContaBancariaV1.sacar 500 3 ⟨1000, [], 3⟩ 100).1 = .dailyWithdrawalCapReached
      ∧ (ContaBancariaV1.sacar 500 3 ⟨1000, [], 3⟩ 100).2 = ⟨1000, [], 3⟩) := by
  have h := c3_cap_rejeita_saques 500 3 3
    ⟨1000, [⟨.saque, 1⟩, ⟨.saque, 1⟩, ⟨.saque, 1⟩]⟩ ⟨1000, [], 3⟩ 100
  have h2 := h.1 (by decide)
  have h3 := h.2 (by decide)
  exact ⟨⟨by decide, h2.1 (by decide), h2.2⟩,
    ⟨by decide, h3.1 (by decide) (by decide) (by decide), h3.2⟩⟩

/-- Counterexample to C4: a V2 checking account at the withdrawal cap
with balance 100 rejects a withdrawal of 200 (which exceeds the balance
and is within the ceiling of 500) with the daily-cap kind, not the
insufficient-balance kind, because the cap test precedes the balance
test. -/
theorem c4_counterexample :
    ContaCorrente.sacar 500 3 ⟨100, [⟨.saque, 1⟩, ⟨.saque, 1⟩, ⟨.saque, 1⟩]⟩ 200
      = .dailyWithdrawalCapReached
    ∧ (200 : ℚ) > (⟨100, [⟨.saque, 1⟩, ⟨.saque, 1⟩, ⟨.saque, 1⟩]⟩ : Conta).saldo
    ∧ (200 : ℚ) ≤ 500
    ∧ SaqueResult.dailyWithdrawalCapReached ≠ .insufficientBalance := by
  decide

/-- C4 as amended: a withdrawal of more than the balance is rejected
with the insufficient-balance kind and leaves the account unchanged:
unconditionally on V2 savings/base accounts; on V2 checking accounts
provided the amount is within the ceiling and the withdrawal count is
below the cap; and on V1 accounts with non-negative balance
unconditionally (the balance test there precedes the limit and cap
tests). -/
theorem c4_saldo_insuficiente (limite : Dinheiro) (limiteSaque limiteSaques : ℕ)
    (dm : Dinheiro) (conta : Conta) (contaV1 : ContaV1) (valor : Dinheiro) :
    (valor > conta.saldo →
        sacar (.poupanca dm) conta valor = .insufficientBalance
        ∧ Saque.registrar (.poupanca dm) conta valor = (none, conta))
    ∧ (valor > conta.saldo → valor ≤ limite → numeroSaques conta.extrato < limiteSaque →
        ContaCorrente.sacar limite limiteSaque conta valor = .insufficientBalance
        ∧ Saque.registrar (.corrente limite limiteSaque) conta valor = (none, conta))
    ∧ (0 ≤ contaV1.saldo → valor > contaV1.saldo →
        (ContaBancariaV1.sacar limite limiteSaques contaV1 valor).1 = .insufficientBalance
        ∧ (ContaBancariaV1.sacar limite limiteSaques contaV1 valor).2 = contaV1) := by
  refine ⟨?_, ?_, ?_⟩
  · intro h
    have hs : sacar (.poupanca dm) conta valor = .insufficientBalance := by
      show ContaBancaria.sacar conta.saldo valor = .insufficientBalance
      unfold ContaBancaria.sacar
      rw [if_pos h]
    refine ⟨hs, ?_⟩
    unfold Saque.registrar
    rw [hs]
  · intro h hl hcap
    have hs : ContaCorrente.sacar limite limiteSaque conta valor = .insufficientBalance := by
      unfold ContaCorrente.sacar
      simp only
      rw [if_neg (not_lt.mpr hl), if_neg (not_le.mpr hcap)]
      unfold ContaBancaria.sacar
      rw [if_pos h]
    refine ⟨hs, ?_⟩
    have hs' : sacar (.corrente limite limiteSaque) conta valor = .insufficientBalance := hs
    unfold Saque.registrar
    rw [hs']
  · intro h0 h
    have hv : ¬ valor ≤ 0 := not_le.mpr (lt_of_le_of_lt h0 h)
    unfold ContaBancariaV1.sacar
    rw [if_neg hv, if_pos h]
    exact ⟨rfl, rfl⟩

/-- Witness for the amended C4: withdrawing 200 from balance-100
accounts is rejected as insufficient balance in all three situations,
leaving each account unchanged. -/
theorem c4_saldo_insuficiente_witness :
    ((200 : ℚ) > (⟨100, []⟩ : Conta).saldo
      ∧ sacar (.poupanca 100) ⟨100, []⟩ 200 = .insufficientBalance
      ∧ Saque.registrar (.poupanca 100) ⟨100, []⟩ 200 = (none, ⟨100, []⟩))
    ∧ (numeroSaques ([] : List Transacao) < 3
      ∧ ContaCorrente.sacar 500 3 ⟨100, []⟩ 200 = .insufficientBalance
      ∧ Saque.registrar (.corrente 500 3) ⟨100, []⟩ 200 = (none, ⟨100, []⟩))
    ∧ ((ContaBancariaV1.sacar 500 3 ⟨100, [], 0⟩ 200).1 = .insufficientBalance
      ∧ (ContaBancariaV1.sacar 500 3 ⟨100, [], 0⟩ 200).2 = ⟨100, [], 0⟩) := by
  have h := c4_saldo_insuficiente 500 3 3 100 ⟨100, []⟩ ⟨100, [], 0⟩ 200
  have h1 := h.1 (by decide)
  have h2 := h.2.1 (by decide) (by decide) (by decide)
  have h3 := h.2.2 (by decide) (by decide)
  exact ⟨⟨by decide, h1.1, h1.2⟩, ⟨by decide, h2.1, h2.2⟩, h3⟩

/-- Counterexample to C5: on a V1 account with balance 100, a
withdrawal of 600 (strictly above the 500 ceiling) is rejected with the
insufficient-balance kind, not the limit-exceeded kind, because the V1
balance test precedes the limit test. -/
theorem c5_counterexample :
    (600 : ℚ) > 500
    ∧ (ContaBancariaV1.sacar 500 3 ⟨100, [], 0⟩ 600).1 = .insufficientBalance
    ∧ SaqueResult.insufficientBalance ≠ .limitExceeded := by
  decide

/-- C5 as amended: a withdrawal strictly above the per-transaction
ceiling is always rejected with the account unchanged; the kind is
limit-exceeded always in V2 checking accounts, and in V1 provided the
amount is positive and within the balance (otherwise V1 reports the
earlier failing check).  In particular withdrawing 600 from a
ceiling-500 account with balance 1000 yields the limit-exceeded kind
with the balance unchanged in both variants. -/
theorem c5_limite_excedido (limite : Dinheiro) (limiteSaque limiteSaques : ℕ)
    (conta : Conta) (contaV1 : ContaV1) (valor : Dinheiro) :
    (valor > limite →
        ContaCorrente.sacar limite limiteSaque conta valor = .limitExceeded
        ∧ Saque.registrar (.corrente limite limiteSaque) conta valor = (none, conta))
    ∧ (valor > limite →
        ((0 < valor → valor ≤ contaV1.saldo →
            (ContaBancariaV1.sacar limite limiteSaques contaV1 valor).1 = .limitExceeded)
          ∧ (ContaBancariaV1.sacar limite limiteSaques contaV1 valor).2 = contaV1)) := by
  constructor
  · intro h
    have hs : ContaCorrente.sacar limite limiteSaque conta valor = .limitExceeded := by
      unfold ContaCorrente.sacar
      simp only
      rw [if_pos h]
    refine ⟨hs, ?_⟩
    have hs' : sacar (.corrente limite limiteSaque) conta valor = .limitExceeded := hs
    unfold Saque.registrar
    rw [hs']
  · intro h
    constructor
    · intro h0 hsaldo
      unfold ContaBancariaV1.sacar
      rw [if_neg (not_le.mpr h0), if_neg (not_lt.mpr hsaldo), if_pos h]
    · unfold ContaBancariaV1.sacar
      by_cases h1 : valor ≤ 0
      · rw [if_pos h1]
      · rw [if_neg h1]
        by_cases h2 : valor > contaV1.saldo
        · rw [if_pos h2]
        · rw [if_neg h2, if_pos h]

/-- Witness for the amended C5, which is exactly Scenario C of the
specification: withdrawing 600 from a ceiling-500 account with balance
1000 yields the limit-exceeded kind and leaves the balance at 1000 in
both variants. -/
theorem c5_limite_excedido_witness :
    ((600 : ℚ) > 500
      ∧ ContaCorrente.sacar 500 3 ⟨1000, []⟩ 600 = .limitExceeded
      ∧ Saque.registrar (.corrente 500 3) ⟨1000, []⟩ 600 = (none, ⟨1000, []⟩))
    ∧ ((ContaBancariaV1.sacar 500 3 ⟨1000, [], 0⟩ 600).1 = .limitExceeded
      ∧ (ContaBancariaV1.sacar 500 3 ⟨1000, [], 0⟩ 600).2 = ⟨1000, [], 0⟩) := by
  have h := c5_limite_excedido 500 3 3 ⟨1000, []⟩ ⟨1000, [], 0⟩ 600
  have h1 := h.1 (by decide)
  have h2 := h.2 (by decide)
  exact ⟨⟨by decide, h1.1, h1.2⟩, ⟨h2.1 (by decide) (by decide), h2.2⟩⟩

lemma countP_zero_find?_none {α : Type} (p : α → Bool) (l : List α)
    (h : l.countP p = 0) : l.find? p = none := by
  rw [List.find?_eq_none]
  intro x hx hpx
  exact (List.countP_eq_zero.mp h x hx) hpx

/-- Counterexample to C6: `Banco.adicionar_cliente` performs no
duplicate check; adding a client whose identifier is already present
changes the list (instead of failing and leaving it unchanged) and
produces a client set with two clients sharing an identifier. -/
theorem c6_counterexample :
    Banco.adicionar_cliente [⟨"123", []⟩] ⟨"123", []⟩
      = [⟨"123", []⟩, ⟨"123", []⟩]
    ∧ Banco.adicionar_cliente [⟨"123", []⟩] ⟨"123", []⟩ ≠ [⟨"123", []⟩]
    ∧ ¬ ((Banco.adicionar_cliente [⟨"123", []⟩] ⟨"123", []⟩).map
          (fun cliente => cliente.cpf)).Nodup := by
  decide

lemma cadastrar_preserva_nodup (clientes : List ClienteV2) (identificador : String)
    (h : (clientes.map (fun cliente => cliente.cpf)).Nodup) :
    ((cadastrar_cliente clientes identificador).map (fun cliente => cliente.cpf)).Nodup := by
  unfold cadastrar_cliente
  cases hf : filtrar_cliente identificador clientes with
  | some cliente => exact h
  | none =>
    have hnot : ∀ cliente ∈ clientes, ¬ (cliente.cpf == identificador) :=
      List.find?_eq_none.mp hf
    have hid : identificador ∉ clientes.map (fun cliente => cliente.cpf) := by
      intro hmem
      obtain ⟨cliente, hcl, hcpf⟩ := List.mem_map.mp hmem
      exact hnot cliente hcl (by rw [hcpf]; exact beq_self_eq_true identificador)
    rw [List.map_append]
    rw [List.nodup_append]
    refine ⟨h, List.nodup_singleton _, ?_⟩
    intro x hx hx'
    simp only [List.map_cons, List.map_nil, List.mem_singleton] at hx'
    subst hx'
    exact hid hx

/-- C6 as amended: the duplicate check lives in the registration
workflow, not in `Banco.adicionar_cliente`: `cadastrar_cliente` leaves
the client list unchanged whenever a client with the identifier already
exists, and therefore any sequence of `cadastrar_cliente` calls
starting from a duplicate-free client list keeps all client
identifiers pairwise distinct. -/
theorem c6_cadastrar_unicidade :
    (∀ (clientes : List ClienteV2) (identificador : String),
        filtrar_cliente identificador clientes ≠ none →
          cadastrar_cliente clientes identificador = clientes)
    ∧ (∀ (idents : List String) (clientes : List ClienteV2),
        (clientes.map (fun cliente => cliente.cpf)).Nodup →
          ((idents.foldl cadastrar_cliente clientes).map
              (fun cliente => cliente.cpf)).Nodup) := by
  constructor
  · intro clientes identificador h
    unfold cadastrar_cliente
    cases hf : filtrar_cliente identificador clientes with
    | some cliente => rfl
    | none => exact absurd hf h
  · intro idents
    induction idents with
    | nil => intro clientes h; exact h
    | cons identificador rest ih =>
      intro clientes h
      exact ih _ (cadastrar_preserva_nodup clientes identificador h)

/-- Witness for the amended C6: registering an existing identifier
leaves the list unchanged, and registering the sequence 1, 2, 1 against
an empty bank yields pairwise distinct identifiers. -/
theorem c6_cadastrar_unicidade_witness :
    (filtrar_cliente "42" [⟨"42", []⟩] ≠ none
      ∧ cadastrar_cliente [⟨"42", []⟩] "42" = [⟨"42", []⟩])
    ∧ ((([] : List ClienteV2).map (fun cliente => cliente.cpf)).Nodup
      ∧ ((["1", "2", "1"].foldl cadastrar_cliente ([] : List ClienteV2)).map
          (fun cliente => cliente.cpf)).Nodup) :=
  ⟨⟨by decide, c6_cadastrar_unicidade.1 [⟨"42", []⟩] "42" (by decide)⟩,
   ⟨by decide, c6_cadastrar_unicidade.2 ["1", "2", "1"] [] (by decide)⟩⟩

/-- Counterexample to C2: with one client owning two accounts,
confirming the cascade prompt but declining the final deletion prompt
reaches a state where the accounts are destroyed while the client
remains and is still found by lookup — an outcome the claim says is
unreachable. -/
theorem c2_counterexample :
    excluir_cliente [⟨"111", [1, 2]⟩] "111" true false = [⟨"111", []⟩]
    ∧ filtrar_cliente "111" (excluir_cliente [⟨"111", [1, 2]⟩] "111" true false)
        = some ⟨"111", []⟩
    ∧ (⟨"111", []⟩ : ClienteV2).contas = [] := by
  decide

lemma excluir_sem_cascata (clientes : List ClienteV2) (identificador : String)
    (cliente : ClienteV2) (hf : filtrar_cliente identificador clientes = some cliente)
    (hc : cliente.contas ≠ []) (cf : Bool) :
    excluir_cliente clientes identificador false cf = clientes := by
  induction clientes with
  | nil => simp [filtrar_cliente] at hf
  | cons cabeca resto ih =>
    by_cases hm : (cabeca.cpf == identificador) = true
    · have hcl : cliente = cabeca := by
        rw [filtrar_cliente,
          List.find?_cons_of_pos (p := fun cliente => cliente.cpf == identificador)
            resto hm] at hf
        exact (Option.some.inj hf).symm
      rw [excluir_cliente, if_pos hm,
        if_neg (by rw [← hcl]; simpa [List.isEmpty_iff] using hc), if_neg (by simp)]
    · have hf' : filtrar_cliente identificador resto = some cliente := by
        rw [filtrar_cliente,
          List.find?_cons_of_neg (p := fun cliente => cliente.cpf == identificador)
            resto hm] at hf
        exact hf
      rw [excluir_cliente, if_neg hm, ih hf']

lemma excluir_com_cascata (clientes : List ClienteV2) (identificador : String)
    (hcount : clientes.countP (fun cliente => cliente.cpf == identificador) ≤ 1) :
    filtrar_cliente identificador (excluir_cliente clientes identificador true true)
      = none := by
  induction clientes with
  | nil => rfl
  | cons cabeca resto ih =>
    by_cases hm : (cabeca.cpf == identificador) = true
    · have hresto : resto.countP (fun cliente => cliente.cpf == identificador) = 0 := by
        rw [List.countP_cons_of_pos
          (fun cliente => cliente.cpf == identificador) resto hm] at hcount
        omega
      have hred : excluir_cliente (cabeca :: resto) identificador true true = resto := by
        rw [excluir_cliente, if_pos hm]
        by_cases he : cabeca.contas.isEmpty
        · rw [if_pos he, if_pos rfl]
        · rw [if_neg he, if_pos rfl, if_pos rfl]
      rw [hred]
      exact countP_zero_find?_none _ _ hresto
    · have hcount' : resto.countP (fun cliente => cliente.cpf == identificador) ≤ 1 := by
        rw [List.countP_cons_of_neg
          (fun cliente => cliente.cpf == identificador) resto hm] at hcount
        exact hcount
      rw [excluir_cliente, if_neg hm, filtrar_cliente,
        List.find?_cons_of_neg
          (p := fun cliente : ClienteV2 => cliente.cpf == identificador) _ hm]
      exact ih hcount'

lemma find?_erase_none (clientes : List ClienteV1) (cpf : String) (cliente : ClienteV1)
    (hcount : clientes.countP (fun c => c.cpf == cpf) ≤ 1)
    (hfind : clientes.find? (fun c => c.cpf == cpf) = some cliente) :
    (clientes.erase cliente).find? (fun c => c.cpf == cpf) = none := by
  induction clientes with
  | nil => simp at hfind
  | cons cabeca resto ih =>
    by_cases hm : (cabeca.cpf == cpf) = true
    · have hcl : cliente = cabeca := by
        rw [List.find?_cons_of_pos (p := fun c => c.cpf == cpf) resto hm] at hfind
        exact (Option.some.inj hfind).symm
      rw [hcl, List.erase_cons_head]
      have hresto : resto.countP (fun c => c.cpf == cpf) = 0 := by
        rw [List.countP_cons_of_pos (fun c => c.cpf == cpf) resto hm] at hcount
        omega
      exact countP_zero_find?_none _ _ hresto
    · have hfind' : resto.find? (fun c => c.cpf == cpf) = some cliente := by
        rw [List.find?_cons_of_neg (p := fun c => c.cpf == cpf) resto hm] at hfind
        exact hfind
      have hp : (cliente.cpf == cpf) = true :=
        List.find?_some (p := fun c : ClienteV1 => c.cpf == cpf) hfind'
      have hne : ¬ (cabeca == cliente) = true := by
        intro hbeq
        have : cabeca = cliente := eq_of_beq hbeq
        rw [this] at hm
        exact hm hp
      rw [List.erase_cons_tail hne,
        List.find?_cons_of_neg (p := fun c : ClienteV1 => c.cpf == cpf) _ hm]
      have hcount' : resto.countP (fun c => c.cpf == cpf) ≤ 1 := by
        rw [List.countP_cons_of_neg (fun c => c.cpf == cpf) resto hm] at hcount
        exact hcount
      exact ih hcount' hfind'

lemma filter_cpf_vazio (contas : List ContaRecV1) (cpf : String) :
    ((contas.filter (fun conta => !(conta.clienteCpf == cpf))).filter
        (fun conta => conta.clienteCpf == cpf)) = [] := by
  induction contas with
  | nil => rfl
  | cons conta resto ih =>
    by_cases hc : (conta.clienteCpf == cpf) = true
    · simp [List.filter_cons, hc, ih]
    · simp [List.filter_cons, hc, ih]

/-- C2 as amended: in V2 the deletion of a client with accounts takes
two separate confirmations.  Declining the cascade prompt leaves the
bank unchanged; confirming the cascade and then confirming the final
deletion removes the client, after which lookup by its identifier finds
nothing.  But confirming the cascade and then declining the final
deletion leaves the client present with its account list already
emptied (the reachable non-atomic outcome of the counterexample), so
only the V1 variant deletes atomically: its single confirmation either
changes nothing or removes the client together with every account
bearing its CPF. -/
theorem c2_exclusao_cliente (clientes : List ClienteV2) (clientesV1 : List ClienteV1)
    (contasV1 : List ContaRecV1) (identificador cpf : String) (conf : Bool) :
    (∀ cliente, filtrar_cliente identificador clientes = some cliente →
        cliente.contas ≠ [] → ∀ cf : Bool,
          excluir_cliente clientes identificador false cf = clientes)
    ∧ (clientes.countP (fun cliente => cliente.cpf == identificador) ≤ 1 →
        filtrar_cliente identificador (excluir_cliente clientes identificador true true)
          = none)
    ∧ (clientesV1.countP (fun cliente => cliente.cpf == cpf) ≤ 1 →
        ContaBancariaV1.excluir_cliente clientesV1 contasV1 cpf conf
            = (clientesV1, contasV1)
        ∨ (ContaBancariaV1.filtrar_cliente cpf
              (ContaBancariaV1.excluir_cliente clientesV1 contasV1 cpf conf).1 = none
          ∧ ((ContaBancariaV1.excluir_cliente clientesV1 contasV1 cpf conf).2.filter
              (fun conta => conta.clienteCpf == cpf)) = [])) := by
  refine ⟨?_, ?_, ?_⟩
  · intro cliente hf hc cf
    exact excluir_sem_cascata clientes identificador cliente hf hc cf
  · intro hcount
    exact excluir_com_cascata clientes identificador hcount
  · intro hcount
    unfold ContaBancariaV1.excluir_cliente
    cases hf : ContaBancariaV1.filtrar_cliente cpf clientesV1 with
    | none => exact Or.inl rfl
    | some cliente =>
      cases conf with
      | false => exact Or.inl rfl
      | true =>
        refine Or.inr ⟨?_, ?_⟩
        · exact find?_erase_none clientesV1 cpf cliente hcount hf
        · exact filter_cpf_vazio contasV1 cpf

/-- Witness for the amended C2 on concrete banks: declining the
cascade changes nothing; confirming cascade and final deletion makes
the client unfindable; the V1 single confirmation removes the client
and both of its accounts together. -/
theorem c2_exclusao_cliente_witness :
    (filtrar_cliente "7" [⟨"7", [1]⟩] = some ⟨"7", [1]⟩
      ∧ excluir_cliente [⟨"7", [1]⟩] "7" false true = [⟨"7", [1]⟩])
    ∧ (([⟨"7", [1]⟩] : List ClienteV2).countP (fun cliente => cliente.cpf == "7") ≤ 1
      ∧ filtrar_cliente "7" (excluir_cliente [⟨"7", [1]⟩] "7" true true) = none)
    ∧ (([⟨"9"⟩] : List ClienteV1).countP (fun cliente => cliente.cpf == "9") ≤ 1
      ∧ (ContaBancariaV1.excluir_cliente [⟨"9"⟩] [⟨1, "9"⟩, ⟨2, "9"⟩] "9" true
            = ([⟨"9"⟩], [⟨1, "9"⟩, ⟨2, "9"⟩])
        ∨ (ContaBancariaV1.filtrar_cliente "9"
              (ContaBancariaV1.excluir_cliente [⟨"9"⟩]
                [⟨1, "9"⟩, ⟨2, "9"⟩] "9" true).1 = none
          ∧ ((ContaBancariaV1.excluir_cliente [⟨"9"⟩]
                [⟨1, "9"⟩, ⟨2, "9"⟩] "9" true).2.filter
              (fun conta => conta.clienteCpf == "9")) = []))) := by
  have h := c2_exclusao_cliente [⟨"7", [1]⟩] [⟨"9"⟩] [⟨1, "9"⟩, ⟨2, "9"⟩] "7" "9" true
  exact ⟨⟨by decide, h.1 ⟨"7", [1]⟩ (by decide) (by decide) true⟩,
    ⟨by decide, h.2.1 (by decide)⟩,
    ⟨by decide, h.2.2 (by decide)⟩⟩
